import Mathlib

/-!
Verification of the EdgeML SeeDot experiment driver
(`tools/SeeDot/SeeDot-dev.py` and `tools/SeeDot/seedot/predictor.py`)
against its natural-language specification.

The Python code is shallowly embedded: process exit statuses, the
filesystem and command-line axis selections are explicit parameters,
pure computations become Lean functions, and Python exceptions become
`Except` errors.
-/

/-! ### The sweep enumeration (`SeeDot-dev.py`, `MainDriver.parseArgs` / `runMainDriver`) -/

/-- One sweep point, the tuple unpacked from `iter` in `runMainDriver`
(`SeeDot-dev.py` lines 163-164): algorithm, encoding, dataset, target,
maximising metric and word length. -/
structure SweepPoint where
  algo : String
  encoding : String
  dataset : String
  target : String
  maximisingMetric : String
  wordLength : Nat
deriving DecidableEq, Repr

/-- An axis value as produced by `argparse`: either a single string (from a
command-line flag or a scalar default) or a list of strings (a list default
such as `Dataset.default = ["cifar-binary"]`). -/
def AxisArg : Type := String ⊕ List String

/-- Normalisation in `parseArgs` (`SeeDot-dev.py` lines 100-111):
`if not isinstance(x, list): x = [x]`. -/
def normalizeAxis : AxisArg → List String
  | Sum.inl s => [s]
  | Sum.inr l => l

/-- The sequence of points enumerated by the loop
`for iter in product(self.args.algo, self.args.encoding, self.args.dataset,
self.args.target, self.args.maximisingMetric, [16])`
(`SeeDot-dev.py` line 163).  `itertools.product` nests its arguments
left-to-right with the rightmost advancing fastest, which is exactly this
chain of `flatMap`s; the final axis is the literal singleton `[16]`. -/
def runMainDriverPoints (algo enc ds tg mm : AxisArg) : List SweepPoint :=
  (normalizeAxis algo).flatMap fun a =>
    (normalizeAxis enc).flatMap fun e =>
      (normalizeAxis ds).flatMap fun d =>
        (normalizeAxis tg).flatMap fun t =>
          (normalizeAxis mm).flatMap fun m =>
            ([16] : List Nat).map fun w => SweepPoint.mk a e d t m w

/-- Spec-side definition, following the specification's words: the full
Cartesian product of the five axes in the fixed axis order
(algorithm, encoding, dataset, target, metric), with the numeric word
length fixed at 16 for every point. -/
def cartesianSpec (A E D T M : List String) : List SweepPoint :=
  ((((A ×ˢ E) ×ˢ D) ×ˢ T) ×ˢ M).map
    fun x => SweepPoint.mk x.1.1.1.1 x.1.1.1.2 x.1.1.2 x.1.2 x.2 16

/-! ### Python-level primitives used by `predictor.py` -/

/-- Python exceptions that the embedded fragments can raise. -/
inductive PyError where
  | fileNotFound   -- `open` on a missing file
  | indexError     -- `stats[0]` on an empty list
  | valueError     -- `float(...)` on a non-numeric string
  | nameError      -- reference to an unbound name
deriving DecidableEq, Repr

/-- The filesystem, as a map from a path to the list of lines of the file's
content (`None` when no file exists at that path). -/
def FS : Type := String → Option (List String)

/-- Python's whitespace characters as stripped by `str.strip()`. -/
def isPySpace (c : Char) : Bool :=
  c = ' ' || c = '\t' || c = '\n' || c = '\r' || c = '\x0b' || c = '\x0c'

/-- Python `str.strip()` with no argument: remove whitespace from both ends. -/
def pyStrip (s : String) : String :=
  String.mk (((s.data.dropWhile isPySpace).reverse.dropWhile isPySpace).reverse)

/-- Value of a run of decimal digit characters. -/
def digitsToNat (l : List Char) : Nat :=
  l.foldl (fun a c => 10 * a + (c.toNat - 48)) 0

/-- The optional leading sign of a decimal literal. -/
def pySign : List Char → ℚ × List Char
  | '-' :: r => (-1, r)
  | '+' :: r => (1, r)
  | r => (1, r)

/-- Split a character list at the first `.`: the part before it, and
(when a `.` is present) the part after it. -/
def splitDot : List Char → List Char × Option (List Char)
  | [] => ([], none)
  | c :: cs =>
      if c = '.' then ([], some cs)
      else
        let r := splitDot cs
        (c :: r.1, r.2)

/-- Python `float()` modelled on plain decimal literals (the format of the
stats files): an optional sign, then digits with at most one decimal point
and at least one digit overall.  Any other string raises `ValueError`,
modelled as `none`.  The numeric value is represented exactly as a rational. -/
def pyFloat (s : String) : Option ℚ :=
  let sb := pySign s.data
  match splitDot sb.2 with
  | (ip, none) =>
      if ip ≠ [] && ip.all Char.isDigit then some (sb.1 * (digitsToNat ip : ℚ))
      else none
  | (ip, some fp) =>
      if (ip ≠ [] || fp ≠ []) && ip.all Char.isDigit && fp.all Char.isDigit then
        some (sb.1 * ((digitsToNat ip : ℚ) + (digitsToNat fp : ℚ) / (10 ^ fp.length : ℚ)))
      else none

/-! ### `Predictor.readStatsFile` (`predictor.py` lines 159-168) -/

/-- The stats file path
`os.path.join("output", self.algo + "-" + self.version, "stats-" + self.datasetType + ".txt")`,
with `os.path.join`'s platform separator modelled as `/`. -/
def statsFilePath (algo version datasetType : String) : String :=
  "output/" ++ algo ++ "-" ++ version ++ "/stats-" ++ datasetType ++ ".txt"

/-- `Predictor.readStatsFile`: open the stats file (`FileNotFoundError` when
absent), read its lines, strip each line, and return `float(stats[0])`
(`IndexError` on an empty file, `ValueError` on a non-numeric first line). -/
def readStatsFile (fs : FS) (algo version datasetType : String) : Except PyError ℚ :=
  match fs (statsFilePath algo version datasetType) with
  | none => Except.error PyError.fileNotFound
  | some content =>
      match content.map pyStrip with
      | [] => Except.error PyError.indexError
      | s0 :: _ =>
          match pyFloat s0 with
          | none => Except.error PyError.valueError
          | some q => Except.ok q

/-- The specification's outcome taxonomy for `ResultStore.readMetric`. -/
inductive StatsError where
  | NotFound        -- stats file absent
  | MalformedStats  -- stats file present but its first line does not parse
deriving DecidableEq, Repr

/-- `readStatsFile`'s exceptions classified with the specification's names:
`FileNotFoundError` is `NotFound`; `IndexError` (empty file) and
`ValueError` (non-numeric first line) are `MalformedStats`. -/
def readMetric (fs : FS) (algo version datasetType : String) : Except StatsError ℚ :=
  match readStatsFile fs algo version datasetType with
  | Except.ok q => Except.ok q
  | Except.error PyError.fileNotFound => Except.error StatsError.NotFound
  | Except.error _ => Except.error StatsError.MalformedStats

/-! ### Build and execute stages (`predictor.py` lines 22-156) -/

/-- Outcome of `Predictor.buildForWindows` as a function of the msbuild
child process's exit status: `if process == 1: return False else: return True`
(`predictor.py` lines 37-42). -/
def buildForWindows (status : Int) : Bool :=
  if status = 1 then false else true

/-- Outcome of `Predictor.buildForLinux` as a function of the `make` child
process's exit status (`predictor.py` lines 53-58), same test as the
Windows build. -/
def buildForLinux (status : Int) : Bool :=
  if status = 1 then false else true

/-- `Predictor.executeForLinux` (`predictor.py` lines 113-129) as a function
of the executable's exit status: `if process == 1` yield `None`, otherwise
read the stats file (whose exceptions propagate). -/
def executeForLinux (status : Int) (fs : FS) (algo version datasetType : String) :
    Except PyError (Option ℚ) :=
  if status = 1 then Except.ok none
  else (readStatsFile fs algo version datasetType).map some

/-- Result of `Predictor.run` together with the log files it creates under
`outputDir` (each stage opens its log before spawning the child process,
so a stage's log exists exactly when the stage is entered). -/
structure RunEffects where
  result : Except PyError (Option ℚ)
  logsCreated : List String
deriving Repr

/-- `Predictor.run` (`predictor.py` lines 170-177) on the Linux pipeline:
build (writing `msbuild.txt`); on `False` return `None` without executing;
otherwise execute (writing `exec.txt`) and return its result. -/
def predictorRun (buildStatus execStatus : Int) (fs : FS)
    (algo version datasetType : String) : RunEffects :=
  if buildForLinux buildStatus = false then
    { result := Except.ok none, logsCreated := ["msbuild.txt"] }
  else
    { result := executeForLinux execStatus fs algo version datasetType,
      logsCreated := ["msbuild.txt", "exec.txt"] }

/-- The environment-PATH computation of `Predictor.buildForMingw`
(`predictor.py` lines 66-68).  When `Common.gccPath` is truthy (not `None`
and non-empty), the assignment reads the bare name `gccPath`, which is bound
nowhere in the module, so Python raises `NameError`; otherwise the copied
environment is passed through unmodified. -/
def buildForMingwEnvPath (gccPath : Option String) (envPath : String) :
    Except PyError String :=
  match gccPath with
  | some g => if g ≠ "" then Except.error PyError.nameError else Except.ok envPath
  | none => Except.ok envPath

/-! ### Bit-width derivation (`SeeDot-dev.py` lines 183-199) -/

inductive Bitwidth where
  | float
  | int8
  | int16
  | int32
deriving DecidableEq, Repr

/-- Outcome of the `try`/`except` block around the bit-width derivation. -/
inductive DeriveOutcome where
  | ok (b : Bitwidth)  -- the chain of tests assigned a bitwidth
  | swallowed          -- `assert False` raised; the handler's
                       -- `assert self.args.load_sf == False` passed, so the
                       -- exception is swallowed and the point continues to build
  | aborted            -- the handler's assert failed: `AssertionError` propagates
deriving DecidableEq, Repr

/-- The bit-width derivation of `runMainDriver` (`SeeDot-dev.py` lines
183-199): `float` encoding gives the `float` tag, otherwise
`config.wordLength` 8/16/32 give `int8`/`int16`/`int32`; any other word
length hits `assert False`, whose `AssertionError` the `except` handler
catches and re-checks with `assert self.args.load_sf == False`. -/
def deriveBitwidth (encoding : String) (wordLength : Int) (load_sf : Bool) :
    DeriveOutcome :=
  if encoding = "float" then DeriveOutcome.ok Bitwidth.float
  else if wordLength = 8 then DeriveOutcome.ok Bitwidth.int8
  else if wordLength = 16 then DeriveOutcome.ok Bitwidth.int16
  else if wordLength = 32 then DeriveOutcome.ok Bitwidth.int32
  else if load_sf = false then DeriveOutcome.swallowed
  else DeriveOutcome.aborted

/-- Whether the sweep point goes on to invoke the compiler/build
(`obj.run()` at `SeeDot-dev.py` line 208) after the derivation block:
everything short of a propagating `AssertionError` continues. -/
def pointProceedsToBuild (encoding : String) (wordLength : Int) (load_sf : Bool) :
    Bool :=
  match deriveBitwidth encoding wordLength load_sf with
  | DeriveOutcome.aborted => false
  | _ => true

/-! ### Toolchain resolution (`SeeDot-dev.py` lines 136-145 and 153-160) -/

/-- The loop state of `checkMSBuildPath`: the `found` flag and the value of
`config.msbuildPath` (`none` while never assigned).  Each existing candidate
overwrites the previous assignment; there is no early exit. -/
def checkMSBuildPathLoop (options : List String) (isFile : String → Bool) :
    Bool × Option String :=
  options.foldl (fun st p => if isFile p then (true, some p) else st) (false, none)

/-- `MainDriver.checkMSBuildPath`: run the loop; if nothing was found raise
an exception whose message lists all of `config.msbuildPathOptions`
(modelled as `Except.error` carrying that list), otherwise the resolved
path is whatever the loop left in `config.msbuildPath`. -/
def checkMSBuildPath (options : List String) (isFile : String → Bool) :
    Except (List String) String :=
  match checkMSBuildPathLoop options isFile with
  | (true, some p) => Except.ok p
  | _ => Except.error options

/-- `MainDriver.run` (`SeeDot-dev.py` lines 153-160): on Windows resolve the
msbuild path first — its exception aborts the whole run before
`runMainDriver` enumerates or processes any sweep point — then run the
sweep.  The value is the list of points the sweep processes. -/
def runDriver (isWindows : Bool) (options : List String) (isFile : String → Bool)
    (algo enc ds tg mm : AxisArg) : Except (List String) (List SweepPoint) :=
  if isWindows then
    match checkMSBuildPath options isFile with
    | Except.error e => Except.error e
    | Except.ok _ => Except.ok (runMainDriverPoints algo enc ds tg mm)
  else Except.ok (runMainDriverPoints algo enc ds tg mm)

/-- A filesystem fixture holding a single stats file
`output/bonsai-fixed/stats-testing.txt` whose first line carries the value
`0.9231` surrounded by whitespace, followed by a second line. -/
def statsFS : FS := fun p =>
  if p = "output/bonsai-fixed/stats-testing.txt" then some [" 0.9231\n", "extra line"]
  else none

/-! ### Helper lemmas -/

/-- A cartesian product mapped through a function, as nested `flatMap`/`map`. -/
theorem product_map_eq {α β γ : Type} (X : List α) (Y : List β) (g : α × β → γ) :
    (X ×ˢ Y).map g = X.flatMap fun x => Y.map fun y => g (x, y) := by
  simp [SProd.sprod, List.product, List.map_flatMap, List.map_map, Function.comp_def]

/-- A cartesian product fed to `flatMap`, as nested `flatMap`s. -/
theorem product_flatMap_eq {α β γ : Type} (X : List α) (Y : List β) (g : α × β → List γ) :
    (X ×ˢ Y).flatMap g = X.flatMap fun x => Y.flatMap fun y => g (x, y) := by
  simp [SProd.sprod, List.product, List.flatMap_assoc, List.flatMap_map, Function.comp]

/-- Reading the fixture filesystem parses the first line's decimal value. -/
theorem readStatsFile_statsFS :
    readStatsFile statsFS "bonsai" "fixed" "testing" = Except.ok (9231 / 10000 : ℚ) := by
  have h : statsFS (statsFilePath "bonsai" "fixed" "testing") =
      some [" 0.9231\n", "extra line"] := by decide
  unfold readStatsFile
  rw [h]
  simp only [List.map_cons]
  have hp : pyFloat (pyStrip " 0.9231\n") = some (9231 / 10000 : ℚ) := by
    simp [pyFloat, pyStrip, isPySpace, pySign, splitDot, digitsToNat]
    norm_num
  rw [hp]

theorem flatMap_single {α γ : Type} (l : List α) (f : α → γ) :
    (l.flatMap fun x => [f x]) = l.map f := by
  induction l with
  | nil => rfl
  | cons x xs ih => simp [List.flatMap_cons, ih]

theorem points_eq_cartesianSpec (A E D T M : List String) :
    (A.flatMap fun a => E.flatMap fun e => D.flatMap fun d => T.flatMap fun t =>
      M.flatMap fun m => ([16] : List Nat).map fun w => SweepPoint.mk a e d t m w) =
    cartesianSpec A E D T M := by
  unfold cartesianSpec
  rw [product_map_eq, product_flatMap_eq, product_flatMap_eq, product_flatMap_eq]
  simp [flatMap_single]

/-! ## Claim theorems -/

/-- C1: for every selection of axis values — each axis given either as a
single value or as a list, and normalised to a list as in `parseArgs` —
`runMainDriver` enumerates exactly the full Cartesian product of the five
axes in the fixed order (algorithm, encoding, dataset, target, metric):
the enumeration equals the Cartesian product in that nesting order, its
length is the product of the axis sizes, and every enumerated point has
word length 16. -/
theorem C1_sweep_full_cartesian (algo enc ds tg mm : AxisArg) :
    runMainDriverPoints algo enc ds tg mm =
      cartesianSpec (normalizeAxis algo) (normalizeAxis enc) (normalizeAxis ds)
        (normalizeAxis tg) (normalizeAxis mm) ∧
    (runMainDriverPoints algo enc ds tg mm).length =
      (normalizeAxis algo).length * (normalizeAxis enc).length *
        (normalizeAxis ds).length * (normalizeAxis tg).length *
        (normalizeAxis mm).length ∧
    ∀ p ∈ runMainDriverPoints algo enc ds tg mm, p.wordLength = 16 := by
  have heq : runMainDriverPoints algo enc ds tg mm =
      cartesianSpec (normalizeAxis algo) (normalizeAxis enc) (normalizeAxis ds)
        (normalizeAxis tg) (normalizeAxis mm) :=
    points_eq_cartesianSpec _ _ _ _ _
  refine ⟨heq, ?_, ?_⟩
  · rw [heq]
    simp [cartesianSpec, List.length_product, Nat.mul_assoc]
  · intro p hp
    rw [heq] at hp
    simp only [cartesianSpec, List.mem_map] at hp
    obtain ⟨x, -, rfl⟩ := hp
    rfl

/-- Witness for C1: a sweep over one algorithm and the two encodings yields
2 points, and a concrete enumerated point has word length 16. -/
theorem C1_sweep_full_cartesian_witness :
    (runMainDriverPoints (Sum.inl "bonsai") (Sum.inr ["fixed", "float"])
        (Sum.inl "cifar-binary") (Sum.inl "x86") (Sum.inl "acc")).length = 2 ∧
    SweepPoint.wordLength
      (SweepPoint.mk "bonsai" "fixed" "cifar-binary" "x86" "acc" 16) = 16 := by
  constructor
  · have h := (C1_sweep_full_cartesian (Sum.inl "bonsai") (Sum.inr ["fixed", "float"])
      (Sum.inl "cifar-binary") (Sum.inl "x86") (Sum.inl "acc")).2.1
    simpa [normalizeAxis] using h
  · exact (C1_sweep_full_cartesian (Sum.inl "bonsai") (Sum.inr ["fixed", "float"])
      (Sum.inl "cifar-binary") (Sum.inl "x86") (Sum.inl "acc")).2.2
      (SweepPoint.mk "bonsai" "fixed" "cifar-binary" "x86" "acc" 16) (by decide)

/-- The loop of `checkMSBuildPath` leaves in `config.msbuildPath` the last
existing candidate: its state equals the first match of the reversed list. -/
theorem checkMSBuildPathLoop_eq (isFile : String → Bool) (l : List String) :
    checkMSBuildPathLoop l isFile =
      ((l.reverse.find? isFile).isSome, l.reverse.find? isFile) := by
  induction l using List.reverseRecOn with
  | nil => rfl
  | append_singleton xs x ih =>
      unfold checkMSBuildPathLoop at ih ⊢
      rw [List.foldl_append]
      by_cases h : isFile x <;>
        simp [h, ih, List.find?_cons]

/-- C3 counterexample: with two candidates `"pathA"` and `"pathB"` that both
exist, the earliest existing entry is `"pathA"` (the first match of the
list), but `checkMSBuildPath` resolves to `"pathB"`: the claim's
"first candidate path that exists" is false on the code. -/
theorem C3_counterexample :
    checkMSBuildPath ["pathA", "pathB"] (fun _ => true) = Except.ok "pathB" ∧
    ["pathA", "pathB"].find? (fun _ => true) = some "pathA" ∧
    "pathB" ≠ "pathA" := by
  refine ⟨rfl, rfl, by decide⟩

/-- C3 amended: `checkMSBuildPath` searches the fixed ordered candidate list
and selects the **last** candidate path that exists (every existing
candidate overwrites the previous assignment and the loop has no early
exit); when no candidate exists it fails carrying the whole candidate
list. -/
theorem C3_amended_last_existing_wins (options : List String) (isFile : String → Bool) :
    checkMSBuildPath options isFile =
      match options.reverse.find? isFile with
      | some p => Except.ok p
      | none => Except.error options := by
  unfold checkMSBuildPath
  rw [checkMSBuildPathLoop_eq]
  cases h : options.reverse.find? isFile <;> simp [h]

/-- Witness for C3 amended: both candidates exist, the last wins. -/
theorem C3_amended_last_existing_wins_witness :
    checkMSBuildPath ["pathA", "pathB"] (fun _ => true) = Except.ok "pathB" ∧
    (["pathA", "pathB"].reverse.find? (fun _ => true)) = some "pathB" := by
  refine ⟨?_, rfl⟩
  rw [C3_amended_last_existing_wins]
  rfl

/-- C4: `readStatsFile` reads the deterministic path
`output/<algorithm>-<version>/stats-<datasetType>.txt`, and whenever that
file's first line, trimmed of surrounding whitespace, parses as a decimal
number `q`, the result is `q` — for any tail of lines after the first, so
later lines do not affect the result. -/
theorem C4_readStatsFile_first_line (algo version datasetType l0 : String)
    (rest : List String) (q : ℚ) (hparse : pyFloat (pyStrip l0) = some q) :
    statsFilePath algo version datasetType =
      "output/" ++ algo ++ "-" ++ version ++ "/stats-" ++ datasetType ++ ".txt" ∧
    ∀ fs : FS, fs (statsFilePath algo version datasetType) = some (l0 :: rest) →
      readStatsFile fs algo version datasetType = Except.ok q := by
  refine ⟨rfl, ?_⟩
  intro fs hfs
  unfold readStatsFile
  rw [hfs]
  simp only [List.map_cons]
  rw [hparse]

/-- Witness for C4: a stats file whose first line is `" 0.9231\n"` (the value
with surrounding whitespace) followed by a second line yields exactly
`0.9231`. -/
theorem C4_readStatsFile_first_line_witness :
    readStatsFile statsFS "bonsai" "fixed" "testing" = Except.ok (9231 / 10000 : ℚ) := by
  have hp : pyFloat (pyStrip " 0.9231\n") = some (9231 / 10000 : ℚ) := by
    simp [pyFloat, pyStrip, isPySpace, pySign, splitDot, digitsToNat]
    norm_num
  exact (C4_readStatsFile_first_line "bonsai" "fixed" "testing" " 0.9231\n"
    ["extra line"] _ hp).2 statsFS (by decide)

/-- C5: when the stats file is absent the metric read is `NotFound`; when it
exists but is empty, or its first (trimmed) line does not parse as a
number, the read is `MalformedStats`; in each of these cases the result is
an error, never a substituted metric value. -/
theorem C5_metric_error_outcomes (fs : FS) (algo version datasetType : String) :
    (fs (statsFilePath algo version datasetType) = none →
      readMetric fs algo version datasetType = Except.error StatsError.NotFound) ∧
    (fs (statsFilePath algo version datasetType) = some [] →
      readMetric fs algo version datasetType = Except.error StatsError.MalformedStats) ∧
    (∀ l0 rest, fs (statsFilePath algo version datasetType) = some (l0 :: rest) →
      pyFloat (pyStrip l0) = none →
      readMetric fs algo version datasetType = Except.error StatsError.MalformedStats) := by
  refine ⟨?_, ?_, ?_⟩
  · intro h
    unfold readMetric readStatsFile
    rw [h]
  · intro h
    unfold readMetric readStatsFile
    rw [h]
    rfl
  · intro l0 rest h hp
    unfold readMetric readStatsFile
    rw [h]
    simp only [List.map_cons]
    rw [hp]

/-- Witness for C5: the three error cases at concrete filesystems — no file,
an empty file, and a file whose first line is not numeric. -/
theorem C5_metric_error_outcomes_witness :
    readMetric (fun _ => none) "bonsai" "fixed" "testing" =
      Except.error StatsError.NotFound ∧
    readMetric (fun p => if p = "output/bonsai-fixed/stats-testing.txt"
        then some [] else none) "bonsai" "fixed" "testing" =
      Except.error StatsError.MalformedStats ∧
    readMetric (fun p => if p = "output/bonsai-fixed/stats-testing.txt"
        then some ["not a number"] else none) "bonsai" "fixed" "testing" =
      Except.error StatsError.MalformedStats := by
  refine ⟨(C5_metric_error_outcomes _ "bonsai" "fixed" "testing").1 rfl,
    (C5_metric_error_outcomes _ "bonsai" "fixed" "testing").2.1 (by decide),
    (C5_metric_error_outcomes _ "bonsai" "fixed" "testing").2.2
      "not a number" [] (by decide) (by decide)⟩

/-- C6: on the platform where toolchain resolution runs (Windows), if none
of the candidate msbuild paths exists, `run` raises before the sweep: the
result is the error carrying the whole candidate list (the exception
message names every candidate tried), and no sweep point is enumerated or
built — in particular no per-configuration build log can have been
created. -/
theorem C6_no_toolchain_aborts_before_sweep (options : List String)
    (isFile : String → Bool) (algo enc ds tg mm : AxisArg)
    (hnone : ∀ p ∈ options, isFile p = false) :
    runDriver true options isFile algo enc ds tg mm = Except.error options := by
  have hfind : options.reverse.find? isFile = none := by
    rw [List.find?_eq_none]
    intro x hx
    simp [hnone x (List.mem_reverse.mp hx)]
  unfold runDriver checkMSBuildPath
  rw [checkMSBuildPathLoop_eq, hfind]
  rfl

/-- Witness for C6: two missing candidates abort the whole run with an error
naming both. -/
theorem C6_no_toolchain_aborts_before_sweep_witness :
    runDriver true ["mb-path-1", "mb-path-2"] (fun _ => false) (Sum.inl "bonsai")
      (Sum.inl "fixed") (Sum.inl "cifar-binary") (Sum.inl "x86") (Sum.inl "acc") =
    Except.error ["mb-path-1", "mb-path-2"] :=
  C6_no_toolchain_aborts_before_sweep _ _ _ _ _ _ _ (by decide)

/-- C2 counterexample: the build and execute stages test `process == 1`, not
`process != 0`.  At exit status 2 — non-zero — `buildForWindows` reports
success, and `executeForLinux` proceeds to read the stats file and yields a
metric: the claim's "any non-zero exit status is a failure" is false on the
code. -/
theorem C2_counterexample :
    (2 : Int) ≠ 0 ∧
    buildForWindows 2 = true ∧
    executeForLinux 2 statsFS "bonsai" "fixed" "testing" =
      Except.ok (some (9231 / 10000 : ℚ)) := by
  refine ⟨by decide, rfl, ?_⟩
  unfold executeForLinux
  rw [if_neg (by decide), readStatsFile_statsFS]
  rfl

/-- C2 amended: for every build or execute invocation the child process's
exit status alone decides the outcome, but the failure test is
`status == 1`: exit status 1 is a failure (build returns failure / execute
yields no metric), and every other exit status — 0, any other non-zero
value, or a negative signal status — is treated as success. -/
theorem C2_amended_exit_status_one (s : Int) (fs : FS) (a v d : String) :
    (buildForWindows s = false ↔ s = 1) ∧
    (buildForLinux s = false ↔ s = 1) ∧
    (executeForLinux s fs a v d = Except.ok none ↔ s = 1) := by
  refine ⟨?_, ?_, ?_⟩
  · unfold buildForWindows
    by_cases h : s = 1 <;> simp [h]
  · unfold buildForLinux
    by_cases h : s = 1 <;> simp [h]
  · unfold executeForLinux
    by_cases h : s = 1 <;> simp [h]
    cases hr : readStatsFile fs a v d <;> simp [hr, Except.map]

/-- Witness for C2 amended: exit status 1 fails both stages. -/
theorem C2_amended_exit_status_one_witness :
    buildForWindows 1 = false ∧ buildForLinux 1 = false ∧
    executeForLinux 1 statsFS "bonsai" "fixed" "testing" = Except.ok none :=
  ⟨(C2_amended_exit_status_one 1 statsFS "bonsai" "fixed" "testing").1.mpr rfl,
   (C2_amended_exit_status_one 1 statsFS "bonsai" "fixed" "testing").2.1.mpr rfl,
   (C2_amended_exit_status_one 1 statsFS "bonsai" "fixed" "testing").2.2.mpr rfl⟩

/-- C7 counterexample: at build exit status 2 — non-zero, so the claim's
parenthetical calls the build stage failed — `Predictor.run` nevertheless
enters the execute stage: the execution log is created and a metric is
returned.  Only exit status 1 makes the build stage report failure. -/
theorem C7_counterexample :
    (2 : Int) ≠ 0 ∧
    predictorRun 2 0 statsFS "bonsai" "fixed" "testing" =
      { result := Except.ok (some (9231 / 10000 : ℚ)),
        logsCreated := ["msbuild.txt", "exec.txt"] } := by
  refine ⟨by decide, ?_⟩
  unfold predictorRun
  rw [if_neg (by decide)]
  unfold executeForLinux
  rw [if_neg (by decide), readStatsFile_statsFS]
  rfl

/-- C7 amended: for every configuration whose build stage reports failure —
which happens exactly at build exit status 1 — `Predictor.run` terminates
that configuration without entering the execute stage: only the build log
exists, no execution log is created, and the result is the failure value
`None`. -/
theorem C7_amended_build_fail_skips_execute (buildStatus execStatus : Int)
    (fs : FS) (a v d : String) (h : buildForLinux buildStatus = false) :
    predictorRun buildStatus execStatus fs a v d =
      { result := Except.ok none, logsCreated := ["msbuild.txt"] } := by
  simp [predictorRun, h]

/-- Witness for C7 amended: build exit status 1 short-circuits the run. -/
theorem C7_amended_build_fail_skips_execute_witness :
    predictorRun 1 0 statsFS "bonsai" "fixed" "testing" =
      { result := Except.ok none, logsCreated := ["msbuild.txt"] } :=
  C7_amended_build_fail_skips_execute 1 0 statsFS "bonsai" "fixed" "testing" (by decide)

/-- C8 counterexample: at encoding `"fixed"` with word length 64 and
`load_sf` false — a combination outside float/8/16/32 — the derivation's
`assert False` is caught by the handler, whose own assert passes, so the
exception is swallowed and the point proceeds to build: it is not rejected
before building, contradicting the claim. -/
theorem C8_counterexample :
    ("fixed" : String) ≠ "float" ∧ (64 : Int) ≠ 8 ∧ (64 : Int) ≠ 16 ∧ (64 : Int) ≠ 32 ∧
    deriveBitwidth "fixed" 64 false = DeriveOutcome.swallowed ∧
    pointProceedsToBuild "fixed" 64 false = true := by
  refine ⟨by decide, by decide, by decide, by decide, rfl, rfl⟩

/-- C8 amended: encoding `float` derives the symbolic tag `float`, and any
other encoding with word length 8, 16 or 32 derives `int8`, `int16`,
`int32` respectively; for any other (encoding, wordLength) combination the
derivation raises internally, but the configuration is rejected before
building only when `load_sf` is true — when `load_sf` is false the error
is silently swallowed and the point proceeds to build without a derived
bit-width tag. -/
theorem C8_amended_derivation (enc : String) (w : Int) (lsf : Bool) :
    (enc = "float" → deriveBitwidth enc w lsf = DeriveOutcome.ok Bitwidth.float) ∧
    (enc ≠ "float" → w = 8 → deriveBitwidth enc w lsf = DeriveOutcome.ok Bitwidth.int8) ∧
    (enc ≠ "float" → w = 16 → deriveBitwidth enc w lsf = DeriveOutcome.ok Bitwidth.int16) ∧
    (enc ≠ "float" → w = 32 → deriveBitwidth enc w lsf = DeriveOutcome.ok Bitwidth.int32) ∧
    (enc ≠ "float" → w ≠ 8 → w ≠ 16 → w ≠ 32 →
      deriveBitwidth enc w lsf =
        if lsf then DeriveOutcome.aborted else DeriveOutcome.swallowed) ∧
    (enc ≠ "float" → w ≠ 8 → w ≠ 16 → w ≠ 32 →
      pointProceedsToBuild enc w lsf = !lsf) := by
  unfold pointProceedsToBuild deriveBitwidth
  refine ⟨?_, ?_, ?_, ?_, ?_, ?_⟩ <;> intros <;> cases lsf <;> simp [*]

/-- Witness for C8 amended: the float tag, the base width 16 tag, and the
abort at width 64 with `load_sf` true. -/
theorem C8_amended_derivation_witness :
    deriveBitwidth "float" 16 false = DeriveOutcome.ok Bitwidth.float ∧
    deriveBitwidth "fixed" 16 false = DeriveOutcome.ok Bitwidth.int16 ∧
    deriveBitwidth "fixed" 64 true = DeriveOutcome.aborted ∧
    pointProceedsToBuild "fixed" 64 true = false := by
  refine ⟨(C8_amended_derivation "float" 16 false).1 rfl,
    (C8_amended_derivation "fixed" 16 false).2.2.1 (by decide) rfl, ?_, ?_⟩
  · have h := (C8_amended_derivation "fixed" 64 true).2.2.2.2.1
      (by decide) (by decide) (by decide) (by decide)
    simpa using h
  · have h := (C8_amended_derivation "fixed" 64 true).2.2.2.2.2
      (by decide) (by decide) (by decide) (by decide)
    simpa using h

/-- C9: evaluating the build environment computation of `buildForMingw` at
the failing input — a configured, non-empty compiler root — raises
`NameError`, because line 68 of `predictor.py` reads the bare name
`gccPath`, which is bound nowhere in the module; the PATH is never
prepended.  With no compiler root configured (`None` or the empty string,
both falsy) the copied environment is passed through unmodified, as the
claim says. -/
theorem C9_mingw_gcc_path_nameerror :
    buildForMingwEnvPath (some "C:/MinGW/bin") "/usr/bin" =
      Except.error PyError.nameError ∧
    buildForMingwEnvPath none "/usr/bin" = Except.ok "/usr/bin" ∧
    buildForMingwEnvPath (some "") "/usr/bin" = Except.ok "/usr/bin" := by
  exact ⟨rfl, rfl, rfl⟩

/-- C10: `Predictor.run` yields `None` both when the build stage fails and
when the execute stage fails — so a `None` result does not indicate which
stage failed — and it yields a metric `q` only when the build succeeded,
the execute stage succeeded, and the stats file parsed to `q`. -/
theorem C10_run_none_ambiguous (buildStatus execStatus : Int) (fs : FS)
    (a v d : String) :
    (buildForLinux buildStatus = false →
      (predictorRun buildStatus execStatus fs a v d).result = Except.ok none) ∧
    (buildForLinux buildStatus = true → execStatus = 1 →
      (predictorRun buildStatus execStatus fs a v d).result = Except.ok none) ∧
    (∀ q : ℚ, (predictorRun buildStatus execStatus fs a v d).result =
        Except.ok (some q) →
      buildForLinux buildStatus = true ∧ execStatus ≠ 1 ∧
      readStatsFile fs a v d = Except.ok q) := by
  refine ⟨?_, ?_, ?_⟩
  · intro h
    simp [predictorRun, h]
  · intro hb he
    simp [predictorRun, hb, executeForLinux, he]
  · intro q h
    by_cases hb : buildForLinux buildStatus = false
    · simp [predictorRun, hb] at h
    · rw [Bool.not_eq_false] at hb
      refine ⟨hb, ?_, ?_⟩
      · intro he
        simp [predictorRun, hb, executeForLinux, he] at h
      · by_cases he : execStatus = 1
        · simp [predictorRun, hb, executeForLinux, he] at h
        · simp [predictorRun, hb, executeForLinux, he] at h
          cases hr : readStatsFile fs a v d <;> simp [hr, Except.map] at h
          rw [h]

/-- Witness for C10: the run over a perfectly good stats file returns the
same `None` when the build fails (status 1) and when the execute fails
(status 1 after a successful build). -/
theorem C10_run_none_ambiguous_witness :
    (predictorRun 1 0 statsFS "bonsai" "fixed" "testing").result = Except.ok none ∧
    (predictorRun 0 1 statsFS "bonsai" "fixed" "testing").result = Except.ok none :=
  ⟨(C10_run_none_ambiguous 1 0 statsFS "bonsai" "fixed" "testing").1 (by decide),
   (C10_run_none_ambiguous 0 1 statsFS "bonsai" "fixed" "testing").2.1 (by decide) rfl⟩
